import Mathlib

/-
Verification of the adaptive RAG pipeline (matlab-troubleshooter-agentic-rag).

Shallow embedding of the Python sources:
  * src/agents/models.py            : Document, RelevanceScore, ReferenceLink,
                                      RelevantDocument, QueryResult, WebSearchResult
  * src/agents/evaluation_agent.py  : EvaluationAgent.determine_retrieval_strategy,
                                      EvaluationAgent.evaluate_relevance
  * src/agents/retrieval_agent.py   : RetrievalAgent.should_retrieve, RetrievalAgent.run
  * src/agents/web_search_agent.py  : WebSearchAgent.extract_sources,
                                      WebSearchAgent.extract_knowledge, WebSearchAgent.run
  * src/agents/generation_agent.py  : GenerationAgent.run and its four modes
  * src/agents/orchestrator.py      : Orchestrator.run
  * src/Scripts/combined_rag_final.py : CombinedRAG.run (branch selection and the
                                      self-assessment grader)
  * src/main.py                     : generate_response

Conventions of the embedding:
  * Python float relevance scores are modelled as rationals.
  * LLM / web-service outputs are inputs of the embedded functions (oracles): the
    code treats them as opaque data, so each embedded function takes the raw
    service outputs it would have received as extra arguments.
  * Python `str.strip()` / `str.lower()` / slicing / `max` are embedded below as
    pyStrip / pyLower / pySlice / pyMax / pyMaxBy, operating on the character
    list of a string exactly as Python operates on its code points.
  * Python `sorted(..., key=..., reverse=True)` is a stable descending sort; it
    is embedded as List.insertionSort with the reflexive descending relation,
    which is also stable, hence computes the same list.
-/

/-! ## Python primitives used by the sources -/

/-- Python `str.lower()` restricted to the ASCII outputs the code compares
against ("yes", "relevant", "fully supported"). -/
def pyLower (s : String) : String := ⟨s.data.map Char.toLower⟩

/-- Python `str.strip()`: remove leading and trailing whitespace. -/
def pyStrip (s : String) : String :=
  ⟨((s.data.dropWhile Char.isWhitespace).reverse.dropWhile Char.isWhitespace).reverse⟩

/-- Python slicing `s[:n]`: the first `n` characters of `s`. -/
def pySlice (s : String) (n : Nat) : String := ⟨s.data.take n⟩

/-- Python `max` on a list of numbers; the sources only apply it to non-empty
lists (each call site is guarded), so the value on `[]` is immaterial. -/
def pyMax : List ℚ → ℚ
  | [] => 0
  | x :: xs => xs.foldl max x

/-- Python `max(l, key=k)`: fold from the left keeping the current best, and
replace it only when a later element is strictly greater; hence ties keep the
first-encountered element. `gt y b` decides `k(y) > k(b)`. -/
def pyMaxBy {α : Type} (gt : α → α → Bool) : List α → Option α
  | [] => none
  | x :: xs => some (xs.foldl (fun best y => if gt y best then y else best) x)

/-- Python `dict.get(k, default)` over a metadata mapping. -/
def dictGet (m : List (String × String)) (k default : String) : String :=
  match m.find? (fun p => p.1 == k) with
  | some p => p.2
  | none => default

/-! ## Data model (src/agents/models.py) -/

/-- A retrieved knowledge-base passage. -/
structure Document where
  content : String
  metadata : List (String × String)
deriving DecidableEq

/-- Document.preview: `content[:max_length] + "..."` when the content is longer
than `max_length`, otherwise the content itself (models.py lines 13-15). -/
def Document.preview (d : Document) (max_length : Nat) : String :=
  if d.content.length > max_length then pySlice d.content max_length ++ "..." else d.content

/-- Result of relevance evaluation: a continuous score and an independent
binary judgment. -/
structure RelevanceScore where
  score : ℚ
  is_relevant : Bool
deriving DecidableEq

/-- A citable source. -/
structure ReferenceLink where
  title : String
  url : String
deriving DecidableEq

/-- A document deemed relevant, as reported in the final result. -/
structure RelevantDocument where
  content_preview : String
  score : ℚ
  url : String
deriving DecidableEq

/-- Final result of a query. -/
structure QueryResult where
  final_response : String
  reference_links : List ReferenceLink
  relevant_docs : List RelevantDocument
deriving DecidableEq

/-- Aggregated web-search outcome. -/
structure WebSearchResult where
  knowledge : String
  sources : List ReferenceLink
deriving DecidableEq

/-! ## Strategy selector (evaluation_agent.py lines 148-168) -/

/-- EvaluationAgent.determine_retrieval_strategy: `web_only` when no scores or
`max < lower_threshold`, `kb_only` when `max >= upper_threshold`, otherwise
`hybrid`. -/
def determine_retrieval_strategy (lower upper : ℚ) (scores : List RelevanceScore) : String :=
  match scores with
  | [] => "web_only"
  | s :: rest =>
      let max_score := (rest.map RelevanceScore.score).foldl max s.score
      if max_score < lower then "web_only"
      else if upper ≤ max_score then "kb_only"
      else "hybrid"

/-! ## Facts about pyMax -/

theorem foldl_max_mem (xs : List ℚ) (x : ℚ) : xs.foldl max x = x ∨ xs.foldl max x ∈ xs := by
  induction xs generalizing x with
  | nil => exact Or.inl rfl
  | cons y ys ih =>
      rcases ih (max x y) with h | h
      · rcases max_choice x y with hm | hm
        · exact Or.inl (by rw [List.foldl_cons, h, hm])
        · exact Or.inr (by rw [List.foldl_cons, h, hm]; exact List.mem_cons_self y ys)
      · exact Or.inr (List.mem_cons_of_mem y h)

theorem le_foldl_max (xs : List ℚ) (x : ℚ) :
    x ≤ xs.foldl max x ∧ ∀ y ∈ xs, y ≤ xs.foldl max x := by
  induction xs generalizing x with
  | nil => exact ⟨le_refl x, by intro y hy; cases hy⟩
  | cons z zs ih =>
      refine ⟨le_trans (le_max_left x z) (ih (max x z)).1, ?_⟩
      intro y hy
      rcases List.mem_cons.mp hy with rfl | hy
      · exact le_trans (le_max_right x y) (ih (max x y)).1
      · exact (ih (max x z)).2 y hy

theorem pyMax_mem (l : List ℚ) (h : l ≠ []) : pyMax l ∈ l := by
  cases l with
  | nil => exact absurd rfl h
  | cons x xs =>
      rcases foldl_max_mem xs x with hm | hm
      · rw [pyMax, hm]; exact List.mem_cons_self x xs
      · exact List.mem_cons_of_mem x hm

theorem le_pyMax (l : List ℚ) (y : ℚ) (hy : y ∈ l) : y ≤ pyMax l := by
  cases l with
  | nil => cases hy
  | cons x xs =>
      rcases List.mem_cons.mp hy with rfl | hy
      · exact (le_foldl_max xs y).1
      · exact (le_foldl_max xs x).2 y hy

theorem pyMax_perm (l l' : List ℚ) (hp : l.Perm l') (h : l ≠ []) : pyMax l = pyMax l' := by
  have h' : l' ≠ [] := by
    intro he; exact h (List.eq_nil_of_length_eq_zero (by rw [hp.length_eq, he]; rfl))
  exact le_antisymm
    (le_pyMax l' (pyMax l) (hp.mem_iff.mp (pyMax_mem l h)))
    (le_pyMax l (pyMax l') (hp.mem_iff.mpr (pyMax_mem l' h')))

/-- The selector computed on a non-empty list is a function of `pyMax` of the scores. -/
theorem determine_retrieval_strategy_eq (lower upper : ℚ) (s : RelevanceScore)
    (rest : List RelevanceScore) :
    determine_retrieval_strategy lower upper (s :: rest) =
      (if pyMax ((s :: rest).map RelevanceScore.score) < lower then "web_only"
       else if upper ≤ pyMax ((s :: rest).map RelevanceScore.score) then "kb_only"
       else "hybrid") := rfl

/-! ## C1 / C7: the strategy selector -/

/-- C1: for thresholds `lower < upper`, the strategy selector returns web-only
(`"web_only"`) when the score list is empty or `max < lower`, hybrid when
`lower ≤ max < upper`, and knowledge-base-only (`"kb_only"`) when `max ≥ upper`
(evaluation_agent.py lines 148-168). -/
theorem strategy_selector_cases (lower upper : ℚ) (hlt : lower < upper)
    (scores : List RelevanceScore) :
    (scores = [] → determine_retrieval_strategy lower upper scores = "web_only") ∧
    (scores ≠ [] →
      (pyMax (scores.map RelevanceScore.score) < lower →
        determine_retrieval_strategy lower upper scores = "web_only") ∧
      (lower ≤ pyMax (scores.map RelevanceScore.score) →
        pyMax (scores.map RelevanceScore.score) < upper →
        determine_retrieval_strategy lower upper scores = "hybrid") ∧
      (upper ≤ pyMax (scores.map RelevanceScore.score) →
        determine_retrieval_strategy lower upper scores = "kb_only")) := by
  cases scores with
  | nil => exact ⟨(fun _ => rfl), (fun h => absurd rfl h)⟩
  | cons s rest =>
      refine ⟨(fun h => by cases h), (fun _ => ?_)⟩
      rw [determine_retrieval_strategy_eq]
      refine ⟨fun h => by rw [if_pos h], fun h1 h2 => ?_, fun h => ?_⟩
      · rw [if_neg (not_lt.mpr h1), if_neg (not_le.mpr h2)]
      · rw [if_neg (not_lt.mpr (le_trans (le_of_lt hlt) h)), if_pos h]

/-- Witness for strategy_selector_cases at concrete inputs: thresholds 1 < 2,
a single score 3 yields knowledge-base-only. -/
theorem strategy_selector_cases_witness :
    determine_retrieval_strategy 1 2 [⟨3, true⟩] = "kb_only" :=
  ((strategy_selector_cases 1 2 (by decide) [⟨3, true⟩]).2 (by decide)).2.2 (by decide)

/-- C7: the strategy selector is a pure function of the maximum score and the
thresholds: a permutation of the score list yields the same strategy, two
non-empty lists with the same maximum yield the same strategy, and evaluating
it twice on identical inputs yields identical output. -/
theorem strategy_selector_pure (lower upper : ℚ) (S T : List RelevanceScore) :
    (S.Perm T →
      determine_retrieval_strategy lower upper S = determine_retrieval_strategy lower upper T) ∧
    (S ≠ [] → T ≠ [] →
      pyMax (S.map RelevanceScore.score) = pyMax (T.map RelevanceScore.score) →
      determine_retrieval_strategy lower upper S = determine_retrieval_strategy lower upper T) ∧
    determine_retrieval_strategy lower upper S = determine_retrieval_strategy lower upper S := by
  have hmaxdep : ∀ (A B : List RelevanceScore), A ≠ [] → B ≠ [] →
      pyMax (A.map RelevanceScore.score) = pyMax (B.map RelevanceScore.score) →
      determine_retrieval_strategy lower upper A = determine_retrieval_strategy lower upper B := by
    intro A B hA hB hmax
    cases A with
    | nil => exact absurd rfl hA
    | cons a as =>
        cases B with
        | nil => exact absurd rfl hB
        | cons b bs => rw [determine_retrieval_strategy_eq, determine_retrieval_strategy_eq, hmax]
  refine ⟨?_, hmaxdep S T, rfl⟩
  intro hp
  cases S with
  | nil => rw [hp.symm.eq_nil]
  | cons s ss =>
      have hSne : (s :: ss : List RelevanceScore) ≠ [] := List.cons_ne_nil s ss
      have hTne : T ≠ [] := by
        intro he; rw [he] at hp; exact hSne hp.eq_nil
      exact hmaxdep (s :: ss) T hSne hTne
        (pyMax_perm _ _ (hp.map RelevanceScore.score) (by simp))

/-- Witness for strategy_selector_pure: swapping a two-element score list does
not change the selected strategy. -/
theorem strategy_selector_pure_witness :
    determine_retrieval_strategy 1 2 [⟨1, true⟩, ⟨3, false⟩] =
      determine_retrieval_strategy 1 2 [⟨3, false⟩, ⟨1, true⟩] :=
  (strategy_selector_pure 1 2 [⟨1, true⟩, ⟨3, false⟩] [⟨3, false⟩, ⟨1, true⟩]).1
    (List.Perm.swap (⟨3, false⟩ : RelevanceScore) (⟨1, true⟩ : RelevanceScore) [])

/-! ## Retrieval gate (retrieval_agent.py) -/

/-- RetrievalAgent.should_retrieve applied to the raw structured service
output: strip, lowercase, and compare with "yes" (lines 63-67). -/
def should_retrieve (rawDecision : String) : Bool :=
  pyLower (pyStrip rawDecision) == "yes"

/-- RetrievalAgent.run: when the gate answers no, return (False, []) without
touching the vector store; otherwise return the store's documents
(lines 93-112). `storeDocs` stands for what similarity_search would return. -/
def RetrievalAgent.run (rawDecision : String) (storeDocs : List Document) :
    Bool × List Document :=
  if should_retrieve rawDecision then (true, storeDocs) else (false, [])

/-! ## Relevance evaluation (evaluation_agent.py lines 79-112) -/

/-- One iteration of EvaluationAgent.evaluate_relevance: the binary service
output is stripped, lowercased and compared with "relevant"; the numerical
score is recorded alongside (lines 96-108). -/
def relevanceJudgment (binaryRaw : String) (numericalScore : ℚ) : RelevanceScore :=
  { score := numericalScore, is_relevant := pyLower (pyStrip binaryRaw) == "relevant" }

/-- EvaluationAgent.evaluate_relevance over the per-document service outputs
(binary raw response, numerical score), one pair per retrieved document. -/
def evaluate_relevance (outputs : List (String × ℚ)) : List RelevanceScore :=
  outputs.map (fun p => relevanceJudgment p.1 p.2)

/-! ## Generation agent (generation_agent.py) -/

/-- The external text-generation service as seen by GenerationAgent:
`complete query context` is the structured response text; `formatScore` models
Python's "{:.2f}" float formatting used inside context strings. -/
structure GenerationOracle where
  complete : String → String → String
  formatScore : ℚ → String

/-- Result of a GenerationAgent mode: response text plus sources. -/
structure GenResult where
  response : String
  sources : List ReferenceLink
deriving DecidableEq

/-- GenerationAgent._prepare_kb_context: sort (document, score) pairs by
descending score (Python sorted is stable; insertionSort with this relation is
the same stable descending sort), concatenate the tagged contents, and emit one
ReferenceLink per document with a non-empty source_url (lines 38-73). -/
def prepare_kb_context (o : GenerationOracle) (documents : List Document) (scores : List ℚ) :
    String × List ReferenceLink :=
  let sorted_pairs :=
    List.insertionSort (fun p q : Document × ℚ => q.2 ≤ p.2) (documents.zip scores)
  let content_parts := sorted_pairs.map
    (fun p => "Document (relevance: " ++ o.formatScore p.2 ++ "):\n" ++ p.1.content)
  let sources := (sorted_pairs.filter
      (fun p => dictGet p.1.metadata "source_url" "" != "")).map
    (fun p => ReferenceLink.mk ("Document (score: " ++ o.formatScore p.2 ++ ")")
      (dictGet p.1.metadata "source_url" ""))
  (String.intercalate "\n\n" content_parts, sources)

/-- GenerationAgent.generate_from_kb (lines 75-104). -/
def generate_from_kb (o : GenerationOracle) (query : String) (documents : List Document)
    (scores : List ℚ) : GenResult :=
  let c := prepare_kb_context o documents scores
  { response := o.complete query c.1, sources := c.2 }

/-- GenerationAgent.generate_from_web (lines 106-135). -/
def generate_from_web (o : GenerationOracle) (query : String) (web : WebSearchResult) :
    GenResult :=
  let sources_text := String.intercalate "\n" (web.sources.map (fun s => s.title ++ ": " ++ s.url))
  let context := "Web search results:\n" ++ web.knowledge ++ "\n\nSources:\n" ++ sources_text
  { response := o.complete query context, sources := web.sources }

/-- GenerationAgent.generate_hybrid (lines 137-177). -/
def generate_hybrid (o : GenerationOracle) (query : String) (documents : List Document)
    (scores : List ℚ) (web : WebSearchResult) : GenResult :=
  let kb := prepare_kb_context o documents scores
  let combined := "Knowledge Base Information:\n" ++ kb.1 ++
    "\n\nWeb Search Information:\n" ++ web.knowledge
  { response := o.complete query combined, sources := kb.2 ++ web.sources }

/-- GenerationAgent.generate_without_context (lines 179-203): no-context mode,
sources are always empty. -/
def generate_without_context (o : GenerationOracle) (query : String) : GenResult :=
  { response := o.complete query "No specific context available.", sources := [] }

/-- GenerationAgent.run (lines 205-229): dispatch on the strategy string; any
value other than the three retrieval strategies falls to the no-context mode.
The orchestrator passes None for the arguments a mode does not read, so the
getD defaults are never consulted. -/
def GenerationAgent.run (o : GenerationOracle) (query strategy : String)
    (documents : Option (List Document)) (scores : Option (List ℚ))
    (web : Option WebSearchResult) : GenResult :=
  if strategy == "kb_only" then generate_from_kb o query (documents.getD []) (scores.getD [])
  else if strategy == "web_only" then generate_from_web o query (web.getD ⟨"", []⟩)
  else if strategy == "hybrid" then
    generate_hybrid o query (documents.getD []) (scores.getD []) (web.getD ⟨"", []⟩)
  else generate_without_context o query

/-! ## Orchestrator (orchestrator.py lines 62-139) -/

/-- All external-service outputs one Orchestrator.run invocation consumes. -/
structure OrchestratorInput where
  query : String
  gateDecisionRaw : String
  storeDocs : List Document
  evalOutputs : List (String × ℚ)
  webResult : WebSearchResult
  gen : GenerationOracle

/-- Observable outcome of one Orchestrator.run invocation: the returned
QueryResult plus which adapters were invoked and what was handed to the
generation agent. -/
structure OrchestratorTrace where
  result : QueryResult
  docStoreCalled : Bool
  webSearchCalled : Bool
  genStrategy : String
  genDocuments : Option (List Document)

/-- Orchestrator.run, early-return branch (lines 84-92): the gate said no, so
no document store access, no evaluation, no web search; the response is
generated in no-context mode. (The source passes the conversation history
positionally in the strategy slot of GenerationAgent.run; since a history is
never one of the three strategy strings, the dispatch still lands in
generate_without_context.) -/
def Orchestrator.runNoRetrieval (gen : GenerationOracle) (query : String) : OrchestratorTrace :=
  { result := { final_response := (generate_without_context gen query).response,
                reference_links := (generate_without_context gen query).sources,
                relevant_docs := [] },
    docStoreCalled := false, webSearchCalled := false,
    genStrategy := "none", genDocuments := none }

/-- Orchestrator.run, main branch (lines 94-139): evaluate, select a strategy,
optionally web-search, generate, and report the thresholded documents sorted
by descending score. -/
def Orchestrator.runWithDocs (lower upper : ℚ) (gen : GenerationOracle) (query : String)
    (documents : List Document) (evalOutputs : List (String × ℚ))
    (webResult : WebSearchResult) : OrchestratorTrace :=
  let relevance_scores := evaluate_relevance evalOutputs
  let strategy := determine_retrieval_strategy lower upper relevance_scores
  let scores := relevance_scores.map RelevanceScore.score
  let genDocs : Option (List Document) :=
    if strategy == "kb_only" || strategy == "hybrid" then some documents else none
  let genScores : Option (List ℚ) :=
    if strategy == "kb_only" || strategy == "hybrid" then some scores else none
  let webArg : Option WebSearchResult :=
    if strategy == "web_only" || strategy == "hybrid" then some webResult else none
  let generation_result := GenerationAgent.run gen query strategy genDocs genScores webArg
  let relevant_docs := ((documents.zip scores).filter (fun p => decide (lower ≤ p.2))).map
    (fun p => RelevantDocument.mk (p.1.preview 200) p.2
      (dictGet p.1.metadata "url" "No URL available"))
  { result := { final_response := generation_result.response,
                reference_links := generation_result.sources,
                relevant_docs :=
                  List.insertionSort (fun a b : RelevantDocument => b.score ≤ a.score)
                    relevant_docs },
    docStoreCalled := true,
    webSearchCalled := strategy == "web_only" || strategy == "hybrid",
    genStrategy := strategy, genDocuments := genDocs }

/-- Orchestrator.run: gate, then one of the two branches. -/
def Orchestrator.run (lower upper : ℚ) (inp : OrchestratorInput) : OrchestratorTrace :=
  let pr := RetrievalAgent.run inp.gateDecisionRaw inp.storeDocs
  if pr.1 = false then Orchestrator.runNoRetrieval inp.gen inp.query
  else Orchestrator.runWithDocs lower upper inp.gen inp.query pr.2 inp.evalOutputs inp.webResult

theorem Orchestrator.run_eq (lower upper : ℚ) (inp : OrchestratorInput) :
    Orchestrator.run lower upper inp =
      if should_retrieve inp.gateDecisionRaw then
        Orchestrator.runWithDocs lower upper inp.gen inp.query inp.storeDocs
          inp.evalOutputs inp.webResult
      else Orchestrator.runNoRetrieval inp.gen inp.query := by
  unfold Orchestrator.run RetrievalAgent.run
  cases h : should_retrieve inp.gateDecisionRaw <;> simp [h]

/-! ## C3 / C9: the reported relevant documents -/

instance relevantDocDescTotal :
    IsTotal RelevantDocument (fun a b => b.score ≤ a.score) :=
  ⟨fun a b => le_total b.score a.score⟩

instance relevantDocDescTrans :
    IsTrans RelevantDocument (fun a b => b.score ≤ a.score) :=
  ⟨fun _ _ _ hab hbc => le_trans hbc hab⟩

/-- Every reported relevant document of the main branch arises from a
(document, score) pair that passed the lower-threshold filter. -/
theorem runWithDocs_relevant_docs_mem (lower upper : ℚ) (gen : GenerationOracle)
    (query : String) (documents : List Document) (evalOutputs : List (String × ℚ))
    (webResult : WebSearchResult) (rd : RelevantDocument)
    (hrd : rd ∈ (Orchestrator.runWithDocs lower upper gen query documents evalOutputs
        webResult).result.relevant_docs) :
    ∃ p : Document × ℚ,
      p ∈ documents.zip ((evaluate_relevance evalOutputs).map RelevanceScore.score) ∧
      lower ≤ p.2 ∧
      rd = RelevantDocument.mk (p.1.preview 200) p.2
        (dictGet p.1.metadata "url" "No URL available") := by
  have hmem := (List.perm_insertionSort
    (fun a b : RelevantDocument => b.score ≤ a.score) _).mem_iff.mp hrd
  rcases List.mem_map.mp hmem with ⟨p, hp, hpe⟩
  rcases List.mem_filter.mp hp with ⟨hpz, hple⟩
  exact ⟨p, hpz, of_decide_eq_true hple, hpe.symm⟩

/-- C3: in every QueryResult produced by the pipeline, relevant_docs is sorted
by score in descending order and every element's score is at least the lower
threshold (orchestrator.py lines 121-132; the no-retrieval branch reports the
empty list). -/
theorem relevant_docs_sorted_and_thresholded (lower upper : ℚ) (inp : OrchestratorInput) :
    List.Sorted (fun a b : RelevantDocument => b.score ≤ a.score)
      (Orchestrator.run lower upper inp).result.relevant_docs ∧
    ∀ rd ∈ (Orchestrator.run lower upper inp).result.relevant_docs, lower ≤ rd.score := by
  rw [Orchestrator.run_eq]
  cases h : should_retrieve inp.gateDecisionRaw with
  | false => simp [Orchestrator.runNoRetrieval, List.Sorted]
  | true =>
      simp only [if_pos rfl]
      constructor
      · exact List.sorted_insertionSort _ _
      · intro rd hrd
        rcases runWithDocs_relevant_docs_mem lower upper inp.gen inp.query inp.storeDocs
          inp.evalOutputs inp.webResult rd hrd with ⟨p, _, hple, hpe⟩
        rw [hpe]
        exact hple

/-- Witness for relevant_docs_sorted_and_thresholded: a run with two documents
scoring 3 and 2 against lower threshold 1 reports both, in descending order. -/
theorem relevant_docs_sorted_and_thresholded_witness :
    (List.Sorted (fun a b : RelevantDocument => b.score ≤ a.score)
      (Orchestrator.run 1 2 (OrchestratorInput.mk "q" "Yes"
        [Document.mk "alpha" [], Document.mk "beta" []]
        [("Relevant", 2), ("Irrelevant", 3)] (WebSearchResult.mk "" [])
        (GenerationOracle.mk (fun _ _ => "r") (fun _ => "s")))).result.relevant_docs) ∧
    ∀ rd ∈ (Orchestrator.run 1 2 (OrchestratorInput.mk "q" "Yes"
        [Document.mk "alpha" [], Document.mk "beta" []]
        [("Relevant", 2), ("Irrelevant", 3)] (WebSearchResult.mk "" [])
        (GenerationOracle.mk (fun _ _ => "r") (fun _ => "s")))).result.relevant_docs,
      (1 : ℚ) ≤ rd.score :=
  relevant_docs_sorted_and_thresholded 1 2 (OrchestratorInput.mk "q" "Yes"
    [Document.mk "alpha" [], Document.mk "beta" []]
    [("Relevant", 2), ("Irrelevant", 3)] (WebSearchResult.mk "" [])
    (GenerationOracle.mk (fun _ _ => "r") (fun _ => "s")))

/-! ## C6: the retrieval gate short-circuit -/

/-- C6: when the retrieval gate answers no, the pipeline returns a QueryResult
with empty reference_links and empty relevant_docs, the final response is the
no-context generation, and neither the document store nor the web search
adapter is called (orchestrator.py lines 81-92, retrieval_agent.py 105-112). -/
theorem gate_no_skips_retrieval (lower upper : ℚ) (inp : OrchestratorInput)
    (h : should_retrieve inp.gateDecisionRaw = false) :
    (Orchestrator.run lower upper inp).result.reference_links = [] ∧
    (Orchestrator.run lower upper inp).result.relevant_docs = [] ∧
    (Orchestrator.run lower upper inp).result.final_response =
      (generate_without_context inp.gen inp.query).response ∧
    (Orchestrator.run lower upper inp).docStoreCalled = false ∧
    (Orchestrator.run lower upper inp).webSearchCalled = false := by
  rw [Orchestrator.run_eq, h]
  exact ⟨rfl, rfl, rfl, rfl, rfl⟩

/-- Witness for gate_no_skips_retrieval: gate output "No" on a store that
would have returned one document. -/
theorem gate_no_skips_retrieval_witness :
    (Orchestrator.run 1 2 (OrchestratorInput.mk "What is a for loop?" "No"
      [Document.mk "alpha" []] [("Relevant", 2)] (WebSearchResult.mk "" [])
      (GenerationOracle.mk (fun _ _ => "a for loop repeats") (fun _ => "s")))).result.reference_links = [] ∧
    (Orchestrator.run 1 2 (OrchestratorInput.mk "What is a for loop?" "No"
      [Document.mk "alpha" []] [("Relevant", 2)] (WebSearchResult.mk "" [])
      (GenerationOracle.mk (fun _ _ => "a for loop repeats") (fun _ => "s")))).result.relevant_docs = [] ∧
    (Orchestrator.run 1 2 (OrchestratorInput.mk "What is a for loop?" "No"
      [Document.mk "alpha" []] [("Relevant", 2)] (WebSearchResult.mk "" [])
      (GenerationOracle.mk (fun _ _ => "a for loop repeats") (fun _ => "s")))).result.final_response =
      (generate_without_context (GenerationOracle.mk (fun _ _ => "a for loop repeats") (fun _ => "s"))
        "What is a for loop?").response ∧
    (Orchestrator.run 1 2 (OrchestratorInput.mk "What is a for loop?" "No"
      [Document.mk "alpha" []] [("Relevant", 2)] (WebSearchResult.mk "" [])
      (GenerationOracle.mk (fun _ _ => "a for loop repeats") (fun _ => "s")))).docStoreCalled = false ∧
    (Orchestrator.run 1 2 (OrchestratorInput.mk "What is a for loop?" "No"
      [Document.mk "alpha" []] [("Relevant", 2)] (WebSearchResult.mk "" [])
      (GenerationOracle.mk (fun _ _ => "a for loop repeats") (fun _ => "s")))).webSearchCalled = false :=
  gate_no_skips_retrieval 1 2 (OrchestratorInput.mk "What is a for loop?" "No"
    [Document.mk "alpha" []] [("Relevant", 2)] (WebSearchResult.mk "" [])
    (GenerationOracle.mk (fun _ _ => "a for loop repeats") (fun _ => "s"))) (by decide)

/-- Preview strings never exceed 203 characters (200 content + "..."). -/
theorem preview_length_le (d : Document) : (d.preview 200).length ≤ 203 := by
  unfold Document.preview
  split
  · rw [String.length_append]
    have h1 : (pySlice d.content 200).length ≤ 200 := by
      show (d.content.data.take 200).length ≤ 200
      simp [List.length_take]
    have h2 : ("..." : String).length = 3 := rfl
    omega
  · rename_i h
    omega

/-- C9: Document.preview returns the content unchanged when it has at most 200
characters and otherwise the first 200 characters followed by "..."; hence
every content_preview in a QueryResult's relevant_docs has length at most 203
(models.py lines 13-15, orchestrator.py lines 122-129). -/
theorem document_preview_bounds (d : Document) (lower upper : ℚ) (inp : OrchestratorInput) :
    (d.content.length ≤ 200 → d.preview 200 = d.content) ∧
    (200 < d.content.length → d.preview 200 = pySlice d.content 200 ++ "...") ∧
    (d.preview 200).length ≤ 203 ∧
    ∀ rd ∈ (Orchestrator.run lower upper inp).result.relevant_docs,
      rd.content_preview.length ≤ 203 := by
  refine ⟨?_, ?_, preview_length_le d, ?_⟩
  · intro h
    unfold Document.preview
    rw [if_neg (not_lt.mpr h)]
  · intro h
    unfold Document.preview
    rw [if_pos h]
  · rw [Orchestrator.run_eq]
    cases hgate : should_retrieve inp.gateDecisionRaw with
    | false => simp [Orchestrator.runNoRetrieval]
    | true =>
        simp only [if_pos rfl]
        intro rd hrd
        rcases runWithDocs_relevant_docs_mem lower upper inp.gen inp.query inp.storeDocs
          inp.evalOutputs inp.webResult rd hrd with ⟨p, _, _, hpe⟩
        rw [hpe]
        exact preview_length_le p.1

/-- Witness for document_preview_bounds: a 3-character content is previewed
unchanged, and the reported previews of a concrete run are within bounds. -/
theorem document_preview_bounds_witness :
    Document.preview (Document.mk "abc" []) 200 = "abc" :=
  (document_preview_bounds (Document.mk "abc" []) 1 2 (OrchestratorInput.mk "q" "No" []
    [] (WebSearchResult.mk "" []) (GenerationOracle.mk (fun _ _ => "r") (fun _ => "s")))).1
    (by decide)

/-! ## C10: binary service decisions default to the negative branch -/

/-- C10: retrieval happens only when the stripped, lowercased gate output is
exactly "yes", and a document is binary-Relevant only when the stripped,
lowercased output is exactly "relevant"; any other string (such as "yes." or
"Relevant.") takes the negative branch instead of raising
(retrieval_agent.py lines 63-67, evaluation_agent.py lines 96-99). -/
theorem binary_decisions_default_negative (raw : String) (docs : List Document)
    (binRaw : String) (score : ℚ) :
    (should_retrieve raw = true ↔ pyLower (pyStrip raw) = "yes") ∧
    (should_retrieve raw = false → RetrievalAgent.run raw docs = (false, [])) ∧
    ((relevanceJudgment binRaw score).is_relevant = true ↔
      pyLower (pyStrip binRaw) = "relevant") ∧
    should_retrieve "yes." = false ∧
    (relevanceJudgment "Relevant." score).is_relevant = false := by
  refine ⟨?_, ?_, ?_, by decide, ?_⟩
  · exact beq_iff_eq
  · intro h
    unfold RetrievalAgent.run
    rw [h]
    rfl
  · exact beq_iff_eq
  · show (pyLower (pyStrip "Relevant.") == "relevant") = false
    decide

/-- Witness for binary_decisions_default_negative: the gate output "yes." is
not an exact match, so no retrieval is performed. -/
theorem binary_decisions_default_negative_witness :
    RetrievalAgent.run "yes." [Document.mk "alpha" []] = (false, []) :=
  (binary_decisions_default_negative "yes." [Document.mk "alpha" []] "x" 0).2.1 (by decide)

/-! ## C2, counterexample part: the orchestrator's knowledge-base-only path -/

/-- C2 fails on the orchestrator: with two retrieved documents — "doc one"
judged binary-"Relevant" with score 2, "doc two" judged binary-"Irrelevant"
with score 3 — against thresholds 0 and 1, the strategy resolves to
knowledge-base-only, yet generation is handed both documents rather than
exactly the binary-Relevant ones ([doc one]): neither the filtering clause nor
the single-highest-score fallback clause of the claim describes this candidate
set (orchestrator.py lines 105-115). -/
theorem kb_candidates_counterexample :
    (Orchestrator.run 0 1 (OrchestratorInput.mk "q" "Yes"
      [Document.mk "doc one" [], Document.mk "doc two" []]
      [("Relevant", 2), ("Irrelevant", 3)] (WebSearchResult.mk "" [])
      (GenerationOracle.mk (fun _ _ => "resp") (fun _ => "s")))).genStrategy = "kb_only" ∧
    (Orchestrator.run 0 1 (OrchestratorInput.mk "q" "Yes"
      [Document.mk "doc one" [], Document.mk "doc two" []]
      [("Relevant", 2), ("Irrelevant", 3)] (WebSearchResult.mk "" [])
      (GenerationOracle.mk (fun _ _ => "resp") (fun _ => "s")))).genDocuments =
      some [Document.mk "doc one" [], Document.mk "doc two" []] ∧
    (relevanceJudgment "Relevant" 2).is_relevant = true ∧
    (relevanceJudgment "Irrelevant" 3).is_relevant = false ∧
    (some [Document.mk "doc one" [], Document.mk "doc two" []] : Option (List Document)) ≠
      some [Document.mk "doc one" []] := by
  refine ⟨?_, ?_, by decide, by decide, by decide⟩
  · decide
  · decide

/-! ## Combined pipeline (src/Scripts/combined_rag_final.py) -/

/-- One retrieved document of CombinedRAG.run together with the per-document
service outputs of Step 3 (lines 316-337): the raw binary relevance response
and the numerical relevance score. -/
structure CDoc where
  content : String
  metadata : List (String × String)
  binaryRaw : String
  score : ℚ
deriving DecidableEq

/-- Whether Step 3 appends the document to relevant_contexts (lines 333-337). -/
def CDoc.isBinaryRelevant (d : CDoc) : Bool := pyLower (pyStrip d.binaryRaw) == "relevant"

/-- The four ways CombinedRAG.run proceeds after the retrieval decision
(lines 302, 343-360, 363-392, 395-431, 432-437). -/
inductive CombinedAction
  | noRetrieval
  | webSearch
  | hybridCombine (best : Option CDoc)
  | selfRag (candidates : List CDoc)
deriving DecidableEq

/-- Branch selection of CombinedRAG.run (lines 299-343, 363, 395):
relevant_contexts collects the binary-Relevant documents, max_score is
`max(eval_scores) if eval_scores else 0`, and the threshold branches follow;
the hybrid branch picks `max(relevant_contexts, key=lambda x: x[2])`. -/
def CombinedRAG.selectAction (lower upper : ℚ) (decisionRaw : String)
    (docs : List CDoc) : CombinedAction :=
  if pyLower (pyStrip decisionRaw) == "yes" then
    let eval_scores := docs.map CDoc.score
    let relevant_contexts := docs.filter CDoc.isBinaryRelevant
    let max_score := if eval_scores.isEmpty then 0 else pyMax eval_scores
    if relevant_contexts.isEmpty || decide (max_score < lower) then .webSearch
    else if decide (lower ≤ max_score) && decide (max_score < upper) then
      .hybridCombine (pyMaxBy (fun y b => decide (b.score < y.score)) relevant_contexts)
    else .selfRag relevant_contexts
  else .noRetrieval

/-- C2, amended part: in the combined script the Self-RAG (knowledge-base-only)
branch receives exactly the binary-Relevant documents, and that branch is
reachable only when at least one such document exists — when none is, the
script performs a web search instead, so no highest-score fallback exists
(combined_rag_final.py lines 331-343, 395-401); in the orchestrator, whenever
the strategy resolves to knowledge-base-only, generation receives all
retrieved documents regardless of their binary judgment
(orchestrator.py lines 105-115). -/
theorem kb_candidates_amended (lower upper : ℚ) (decisionRaw : String)
    (docs : List CDoc) (cands : List CDoc) (inp : OrchestratorInput) :
    (CombinedRAG.selectAction lower upper decisionRaw docs =
        CombinedAction.selfRag cands →
      cands = docs.filter CDoc.isBinaryRelevant ∧ cands ≠ [] ∧
        ∀ d ∈ cands, d.isBinaryRelevant = true) ∧
    ((Orchestrator.run lower upper inp).genStrategy = "kb_only" →
      (Orchestrator.run lower upper inp).genDocuments = some inp.storeDocs) := by
  constructor
  · intro h
    have leaf : ∀ (hne : (docs.filter CDoc.isBinaryRelevant).isEmpty = false)
        (he : docs.filter CDoc.isBinaryRelevant = cands),
        cands = docs.filter CDoc.isBinaryRelevant ∧ cands ≠ [] ∧
          ∀ d ∈ cands, d.isBinaryRelevant = true := by
      intro hne he
      subst he
      refine ⟨rfl, ?_, ?_⟩
      · intro he2
        rw [he2] at hne
        cases hne
      · intro d hd
        exact (List.mem_filter.mp hd).2
    unfold CombinedRAG.selectAction at h
    split at h
    · dsimp only at h
      split at h
      · split at h
        · cases h
        · split at h
          · cases h
          · rename_i hweb _
            refine leaf ?_ (by injection h)
            cases hq : (docs.filter CDoc.isBinaryRelevant).isEmpty
            · rfl
            · exact absurd (by rw [hq]; rfl) hweb
      · split at h
        · cases h
        · split at h
          · cases h
          · rename_i hweb _
            refine leaf ?_ (by injection h)
            cases hq : (docs.filter CDoc.isBinaryRelevant).isEmpty
            · rfl
            · exact absurd (by rw [hq]; rfl) hweb
    · cases h
  · intro h
    rw [Orchestrator.run_eq] at h ⊢
    cases hgate : should_retrieve inp.gateDecisionRaw
    · rw [hgate, if_neg Bool.false_ne_true] at h
      have hcontr : ("none" : String) = "kb_only" := h
      exact absurd hcontr (by decide)
    · rw [hgate, if_pos rfl] at h
      rw [if_pos rfl]
      have hstrat : determine_retrieval_strategy lower upper
          (evaluate_relevance inp.evalOutputs) = "kb_only" := h
      show (if (determine_retrieval_strategy lower upper (evaluate_relevance inp.evalOutputs)
            == "kb_only" ||
          determine_retrieval_strategy lower upper (evaluate_relevance inp.evalOutputs)
            == "hybrid") = true
        then some inp.storeDocs else none) = some inp.storeDocs
      rw [hstrat]
      rfl

/-- Witness for kb_candidates_amended at concrete runs: the combined script
with one binary-Relevant document of score 2 against thresholds 0 and 1, and
the orchestrator handing both retrieved documents to generation on its
knowledge-base-only path. -/
theorem kb_candidates_amended_witness :
    (([CDoc.mk "c" [] "Relevant" 2] : List CDoc) =
      ([CDoc.mk "c" [] "Relevant" 2] : List CDoc).filter CDoc.isBinaryRelevant ∧
    ([CDoc.mk "c" [] "Relevant" 2] : List CDoc) ≠ [] ∧
    ∀ d ∈ ([CDoc.mk "c" [] "Relevant" 2] : List CDoc), d.isBinaryRelevant = true) ∧
    (Orchestrator.run 0 1 (OrchestratorInput.mk "q" "Yes"
      [Document.mk "doc one" [], Document.mk "doc two" []]
      [("Relevant", 2), ("Irrelevant", 3)] (WebSearchResult.mk "" [])
      (GenerationOracle.mk (fun _ _ => "resp") (fun _ => "s")))).genDocuments =
      some [Document.mk "doc one" [], Document.mk "doc two" []] :=
  ⟨(kb_candidates_amended 0 1 "Yes" [CDoc.mk "c" [] "Relevant" 2]
      [CDoc.mk "c" [] "Relevant" 2] (OrchestratorInput.mk "q" "Yes"
        [Document.mk "doc one" [], Document.mk "doc two" []]
        [("Relevant", 2), ("Irrelevant", 3)] (WebSearchResult.mk "" [])
        (GenerationOracle.mk (fun _ _ => "resp") (fun _ => "s")))).1 (by decide),
    (kb_candidates_amended 0 1 "Yes" [CDoc.mk "c" [] "Relevant" 2]
      [CDoc.mk "c" [] "Relevant" 2] (OrchestratorInput.mk "q" "Yes"
        [Document.mk "doc one" [], Document.mk "doc two" []]
        [("Relevant", 2), ("Irrelevant", 3)] (WebSearchResult.mk "" [])
        (GenerationOracle.mk (fun _ _ => "resp") (fun _ => "s")))).2 (by decide)⟩

/-! ## C4: the Self-Assessment Grader (combined_rag_final.py lines 398-423) -/

/-- A graded candidate of the Self-RAG path (line 418): generated response,
support judgment (stripped and lowercased at line 409), utility rating
(line 415), and the source document metadata. -/
structure Candidate where
  response : String
  support : String
  utility : ℤ
  metadata : List (String × String)
deriving DecidableEq

/-- The grading key of line 422: `(x[1] == 'fully supported', x[2])`. -/
def supportKey (c : Candidate) : Bool × ℤ := (c.support == "fully supported", c.utility)

/-- Python's `>` on the key tuples: lexicographic, with True > False. -/
def keyGtb (a b : Bool × ℤ) : Bool := (a.1 && !b.1) || ((a.1 == b.1) && decide (b.2 < a.2))

/-- Line 422: `best_response = max(responses, key=lambda x: (x[1] == 'fully
supported', x[2]))`. -/
def select_best_response (l : List Candidate) : Option Candidate :=
  pyMaxBy (fun y b => keyGtb (supportKey y) (supportKey b)) l

theorem keyGtb_iff (a b : Bool × ℤ) :
    keyGtb a b = true ↔ (a.1 = true ∧ b.1 = false) ∨ (a.1 = b.1 ∧ b.2 < a.2) := by
  rcases a with ⟨ab, az⟩
  rcases b with ⟨bb, bz⟩
  cases ab <;> cases bb <;> simp [keyGtb]

theorem keyGtb_irrefl (a : Bool × ℤ) : keyGtb a a = false := by
  rcases a with ⟨ab, az⟩
  cases ab <;> simp [keyGtb]

theorem keyGtb_trans (a b c : Bool × ℤ) (hab : keyGtb a b = true)
    (hbc : keyGtb b c = true) : keyGtb a c = true := by
  rw [keyGtb_iff] at hab hbc ⊢
  rcases hab with ⟨h1, h2⟩ | ⟨h1, h2⟩ <;> rcases hbc with ⟨h3, h4⟩ | ⟨h3, h4⟩
  · rw [h2] at h3; cases h3
  · exact Or.inl ⟨h1, h3 ▸ h2⟩
  · exact Or.inl ⟨h3 ▸ h1, h4⟩
  · exact Or.inr ⟨h1.trans h3, h4.trans h2⟩

theorem keyGtb_negtrans (a b c : Bool × ℤ) (hab : keyGtb a b = false)
    (hbc : keyGtb b c = false) : keyGtb a c = false := by
  rcases a with ⟨ab, az⟩
  rcases b with ⟨bb, bz⟩
  rcases c with ⟨cb, cz⟩
  cases ab <;> cases bb <;> cases cb <;> simp [keyGtb] at hab hbc ⊢ <;> omega



/-- The left fold of Python `max(key=...)` returns the first element whose key
is maximal: nothing in the list strictly beats it, and it strictly beats
everything that came before it. -/
theorem foldl_best_spec {α : Type} (gt : α → α → Bool)
    (hirr : ∀ a, gt a a = false)
    (htrans : ∀ a b c, gt a b = true → gt b c = true → gt a c = true)
    (hnegtrans : ∀ a b c, gt a b = false → gt b c = false → gt a c = false)
    (xs : List α) (x : α) :
    ∃ l₁ l₂, x :: xs = l₁ ++ (xs.foldl (fun best y => if gt y best then y else best) x) :: l₂ ∧
      (∀ z ∈ l₁, gt (xs.foldl (fun best y => if gt y best then y else best) x) z = true) ∧
      (∀ z ∈ x :: xs, gt z (xs.foldl (fun best y => if gt y best then y else best) x) = false) := by
  induction xs generalizing x with
  | nil =>
      refine ⟨[], [], rfl, (by intro z hz; cases hz), ?_⟩
      intro z hz
      rcases List.mem_singleton.mp hz with rfl
      exact hirr _
  | cons y ys ih =>
      rw [List.foldl_cons]
      rcases Bool.eq_false_or_eq_true (gt y x) with hyx | hyx
      · -- y beats x: the running best becomes y
        have hstep : (if gt y x = true then y else x) = y := by simp [hyx]
        rw [hstep]
        rcases ih y with ⟨l₁, l₂, hdec, hpre, hmax⟩
        have hry : gt (ys.foldl (fun best y => if gt y best then y else best) y) x = true := by
          cases l₁ with
          | nil =>
              rw [List.nil_append] at hdec
              have hy : y = ys.foldl (fun best y => if gt y best then y else best) y :=
                (List.cons.injEq _ _ _ _ ▸ hdec).1
              rw [← hy]
              exact hyx
          | cons w l₁' =>
              rw [List.cons_append] at hdec
              have hyw : y = w := (List.cons.injEq _ _ _ _ ▸ hdec).1
              have hcy := hpre w (List.mem_cons_self w l₁')
              rw [← hyw] at hcy
              exact htrans _ _ _ hcy hyx
        refine ⟨x :: l₁, l₂, ?_, ?_, ?_⟩
        · rw [List.cons_append, ← hdec]
        · intro z hz
          rcases List.mem_cons.mp hz with hzx | hz
          · subst hzx; exact hry
          · exact hpre z hz
        · intro z hz
          rcases List.mem_cons.mp hz with hzx | hz
          · subst hzx
            rcases Bool.eq_false_or_eq_true
                (gt z (ys.foldl (fun best y => if gt y best then y else best) y)) with hzr | hzr
            · have hcontr := htrans _ _ _ hzr hry
              rw [hirr] at hcontr
              exact Bool.noConfusion hcontr
            · exact hzr
          · exact hmax z hz
      · -- y does not beat x: the running best stays x
        have hstep : (if gt y x = true then y else x) = x := by simp [hyx]
        rw [hstep]
        rcases ih x with ⟨l₁, l₂, hdec, hpre, hmax⟩
        cases l₁ with
        | nil =>
            rw [List.nil_append] at hdec
            have hx : x = ys.foldl (fun best y => if gt y best then y else best) x :=
              (List.cons.injEq _ _ _ _ ▸ hdec).1
            refine ⟨[], y :: ys, ?_, (by intro z hz; cases hz), ?_⟩
            · rw [List.nil_append, ← hx]
            · intro z hz
              rcases List.mem_cons.mp hz with hzx | hz
              · subst hzx; rw [← hx]; exact hirr _
              · rcases List.mem_cons.mp hz with hzy | hz2
                · subst hzy; rw [← hx]; exact hyx
                · exact hmax z (List.mem_cons_of_mem x hz2)
        | cons w l₁' =>
            rw [List.cons_append] at hdec
            have hxw : x = w := (List.cons.injEq _ _ _ _ ▸ hdec).1
            have hys : ys = l₁' ++ (ys.foldl (fun best y => if gt y best then y else best) x) :: l₂ :=
              (List.cons.injEq _ _ _ _ ▸ hdec).2
            have hrx : gt (ys.foldl (fun best y => if gt y best then y else best) x) x = true := by
              have h0 := hpre w (List.mem_cons_self w l₁')
              rw [← hxw] at h0
              exact h0
            have hry : gt (ys.foldl (fun best y => if gt y best then y else best) x) y = true := by
              rcases Bool.eq_false_or_eq_true
                  (gt (ys.foldl (fun best y => if gt y best then y else best) x) y) with hrz | hrz
              · exact hrz
              · have hcontr := hnegtrans _ _ _ hrz hyx
                rw [hrx] at hcontr
                exact Bool.noConfusion hcontr
            refine ⟨x :: y :: l₁', l₂, ?_, ?_, ?_⟩
            · rw [List.cons_append, List.cons_append, ← hys]
            · intro z hz
              rcases List.mem_cons.mp hz with hzx | hz
              · subst hzx; exact hrx
              · rcases List.mem_cons.mp hz with hzy | hz2
                · subst hzy; exact hry
                · exact hpre z (List.mem_cons_of_mem w hz2)
            · intro z hz
              rcases List.mem_cons.mp hz with hzx | hz
              · subst hzx; exact hmax z (List.mem_cons_self z ys)
              · rcases List.mem_cons.mp hz with hzy | hz2
                · subst hzy
                  rcases Bool.eq_false_or_eq_true
                      (gt z (ys.foldl (fun best y => if gt y best then y else best) x)) with hzr | hzr
                  · have hcontr := htrans _ _ _ hzr hrx
                    rw [hyx] at hcontr
                    exact Bool.noConfusion hcontr
                  · exact hzr
                · exact hmax z (List.mem_cons_of_mem x hz2)


/-- C4: for every non-empty candidate list the Self-Assessment Grader returns
the first candidate maximizing the lexicographic key (support == "fully
supported", utility): the key order (first conjunct) makes any fully-supported
candidate beat any non-fully-supported one regardless of utility and breaks
same-tier comparisons by utility; the selected candidate is beaten by no
candidate and strictly beats every earlier one, so ties keep the
first-encountered candidate (combined_rag_final.py lines 420-423). -/
theorem grader_selects_lex_max (l : List Candidate) (hl : l ≠ []) :
    (∀ a b : Bool × ℤ, keyGtb a b = true ↔
      (a.1 = true ∧ b.1 = false) ∨ (a.1 = b.1 ∧ b.2 < a.2)) ∧
    ∃ c l₁ l₂, select_best_response l = some c ∧ l = l₁ ++ c :: l₂ ∧
      (∀ x ∈ l, keyGtb (supportKey x) (supportKey c) = false) ∧
      (∀ x ∈ l₁, keyGtb (supportKey c) (supportKey x) = true) := by
  refine ⟨keyGtb_iff, ?_⟩
  cases l with
  | nil => exact absurd rfl hl
  | cons x xs =>
      rcases foldl_best_spec (fun y b => keyGtb (supportKey y) (supportKey b))
        (fun a => keyGtb_irrefl _)
        (fun a b c => keyGtb_trans _ _ _)
        (fun a b c => keyGtb_negtrans _ _ _) xs x with ⟨l₁, l₂, hdec, hpre, hmax⟩
      exact ⟨_, l₁, l₂, rfl, hdec, hmax, hpre⟩

/-- Witness for grader_selects_lex_max: the spec example — candidate A
"partially supported" with utility 5 against candidate B "fully supported"
with utility 2 — selects B. -/
theorem grader_selects_lex_max_witness :
    select_best_response
        [Candidate.mk "A" "partially supported" 5 [], Candidate.mk "B" "fully supported" 2 []] =
      some (Candidate.mk "B" "fully supported" 2 []) ∧
    (∃ c l₁ l₂,
      select_best_response
          [Candidate.mk "A" "partially supported" 5 [],
            Candidate.mk "B" "fully supported" 2 []] = some c ∧
      [Candidate.mk "A" "partially supported" 5 [], Candidate.mk "B" "fully supported" 2 []] =
        l₁ ++ c :: l₂ ∧
      (∀ x ∈ [Candidate.mk "A" "partially supported" 5 [],
          Candidate.mk "B" "fully supported" 2 []],
        keyGtb (supportKey x) (supportKey c) = false) ∧
      (∀ x ∈ l₁, keyGtb (supportKey c) (supportKey x) = true)) :=
  ⟨by decide, (grader_selects_lex_max
    [Candidate.mk "A" "partially supported" 5 [], Candidate.mk "B" "fully supported" 2 []]
    (by decide)).2⟩

/-! ## Web search agent (web_search_agent.py) -/

/-- Python `str.split('\n')` over the character list: split at every newline,
keeping empty fragments. -/
def splitNl : List Char → List (List Char)
  | [] => [[]]
  | c :: cs =>
      match splitNl cs with
      | [] => [[]]
      | g :: gs => if c = '\n' then [] :: g :: gs else (c :: g) :: gs

/-- Python `s.split('\n')` as a list of strings. -/
def pySplitNl (s : String) : List String := (splitNl s.data).map (fun l => ⟨l⟩)

/-- One parsed item of the raw search-results JSON: a dict with optional
title and link fields. -/
structure SearchItem where
  title : Option String
  link : Option String
deriving DecidableEq

/-- The outcome of `json.loads` on the raw web results: a JSONDecodeError or a
list of result dicts. -/
inductive RawWebResults
  | malformed
  | parsed (items : List SearchItem)
deriving DecidableEq

/-- WebSearchAgent.extract_sources (lines 86-108): a parse failure is caught
and degrades to []; each parsed item with a non-empty link contributes a
ReferenceLink, with the title defaulting to "Untitled". -/
def extract_sources : RawWebResults → List ReferenceLink
  | RawWebResults.malformed => []
  | RawWebResults.parsed items =>
      (items.filter (fun r => r.link.getD "" != "")).map
        (fun r => ReferenceLink.mk (r.title.getD "Untitled") (r.link.getD ""))

/-- WebSearchAgent.extract_knowledge (lines 69-84) applied to the refinement
chain's outcome: on success split into stripped non-empty lines; a chain
exception propagates, since neither extract_knowledge nor run has a
try/except around the chain call. -/
def extract_knowledge (refineOutcome : Except String String) : Except String (List String) :=
  match refineOutcome with
  | Except.error e => Except.error e
  | Except.ok result =>
      Except.ok (((pySplitNl result).map pyStrip).filter (fun p => p != ""))

/-- WebSearchAgent.run (lines 110-135): join the key points with newlines and
pair them with the extracted sources. `refineOutcome` is the outcome of the
knowledge-refinement service call on the raw web results and `webResults` the
parse of that same raw text; a refinement failure leaves the agent uncaught. -/
def WebSearchAgent.run (refineOutcome : Except String String)
    (webResults : RawWebResults) : Except String WebSearchResult :=
  match extract_knowledge refineOutcome with
  | Except.error e => Except.error e
  | Except.ok key_points =>
      Except.ok (WebSearchResult.mk (String.intercalate "\n" key_points)
        (extract_sources webResults))

/-- C5 fails: on unparseable raw results the sources do degrade to [], but the
knowledge is whatever the refinement stage produced — here one non-empty key
point — not the empty string (web_search_agent.py lines 110-135). -/
theorem web_refinement_counterexample :
    WebSearchAgent.run (Except.ok "- a point") RawWebResults.malformed =
      Except.ok (WebSearchResult.mk "- a point" []) ∧
    ("- a point" : String) ≠ "" := by
  refine ⟨?_, by decide⟩
  rfl

/-- C5 amended: on unparseable raw results only the source list degrades to
[]; the knowledge field is still the joined refined key points of the raw
text; and when the refinement chain itself throws, WebSearchAgent.run
propagates the error instead of producing a WebSearchResult (the failure is
only converted to a canned message at the top-level entry point; see
final_generation_failure_apology). -/
theorem web_refinement_amended (refineOutcome : Except String String) (e k : String)
    (webResults : RawWebResults) :
    (∀ r, WebSearchAgent.run refineOutcome RawWebResults.malformed = Except.ok r →
      r.sources = []) ∧
    WebSearchAgent.run (Except.error e) webResults = Except.error e ∧
    WebSearchAgent.run (Except.ok k) webResults =
      Except.ok (WebSearchResult.mk
        (String.intercalate "\n" (((pySplitNl k).map pyStrip).filter (fun p => p != "")))
        (extract_sources webResults)) := by
  refine ⟨?_, rfl, rfl⟩
  intro r hr
  cases refineOutcome with
  | error e2 => cases hr
  | ok k2 =>
      have : r = WebSearchResult.mk
          (String.intercalate "\n" (((pySplitNl k2).map pyStrip).filter (fun p => p != "")))
          (extract_sources RawWebResults.malformed) := by
        cases hr
        rfl
      rw [this]
      rfl

/-- Witness for web_refinement_amended: a concrete malformed-results run has
no sources, and a concrete refinement failure propagates. -/
theorem web_refinement_amended_witness :
    (WebSearchResult.mk "- a" []).sources = [] ∧
    WebSearchAgent.run (Except.error "boom") RawWebResults.malformed = Except.error "boom" :=
  ⟨(web_refinement_amended (Except.ok "- a") "boom" "k" RawWebResults.malformed).1
      (WebSearchResult.mk "- a" []) rfl,
    (web_refinement_amended (Except.ok "- a") "boom" "k" RawWebResults.malformed).2.1⟩

/-! ## Top-level request handler (main.py lines 67-84) -/

/-- What generate_response hands back to its caller: the orchestrator's
QueryResult on success, or a fallback message string. -/
inductive GenerateResponseOutcome
  | success (result : QueryResult)
  | fallback (message : String)
deriving DecidableEq

/-- main.generate_response: an empty prompt short-circuits to a canned
message; otherwise orchestrator.run executes inside try/except and any raised
error becomes the apology message instead of propagating (lines 72-84).
`orchestratorOutcome` is the outcome of the orchestrator.run call. -/
def generate_response (prompt : String) (orchestratorOutcome : Except String QueryResult) :
    GenerateResponseOutcome :=
  if prompt == "" then
    GenerateResponseOutcome.fallback
      "I didn't receive any input. Please try again with a question or message."
  else
    match orchestratorOutcome with
    | Except.ok result => GenerateResponseOutcome.success result
    | Except.error _ =>
        GenerateResponseOutcome.fallback
          "Sorry, I encountered an error while processing your request. Please try again."

/-- C8: whenever the pipeline raises while producing the final answer, the
caller receives the apology response string rather than the raw error
(main.py lines 76-84). -/
theorem final_generation_failure_apology (prompt : String) (e : String)
    (h : prompt ≠ "") :
    generate_response prompt (Except.error e) =
      GenerateResponseOutcome.fallback
        "Sorry, I encountered an error while processing your request. Please try again." := by
  unfold generate_response
  rw [if_neg]
  intro hb
  exact h (by simpa using hb)

/-- Witness for final_generation_failure_apology at a concrete failing run. -/
theorem final_generation_failure_apology_witness :
    generate_response "hi" (Except.error "ValueError") =
      GenerateResponseOutcome.fallback
        "Sorry, I encountered an error while processing your request. Please try again." :=
  final_generation_failure_apology "hi" "ValueError" (by decide)
